import Mathlib

/-!
Shallow embedding of the wallet/ledger service
(`src/wallet/wallet.service.ts`, `src/currency/currency.service.ts`,
`src/wallet/entities/*.ts`, `src/wallet/exceptions/*.ts`).

Monetary values are modelled as rationals (the service stores fixed-point
decimals and JavaScript `Math.round`-based rounding; all amounts appearing
in the claims are exactly representable).  The relational store is modelled
as an explicit state: a list of wallet rows, an append-only list of
transaction rows, and a counter standing for the store's id generator.
A thrown exception inside the store transaction rolls the whole attempt
back, so every failing operation returns the unchanged input state.
Timestamps (`createdAt` / `updatedAt`) play no role in any claim and are
omitted.  The TypeORM `@VersionColumn` starts at 1 on insert and is
incremented on every successful update of the wallet row.
-/

namespace LedgerTask

/-- `TransactionType` enum (`src/wallet/enums/transaction-type.enum.ts`,
referenced throughout the service). -/
inductive TransactionType where
  | DEPOSIT
  | WITHDRAWAL
deriving DecidableEq, Repr

/-- `CreateTransactionDto` (`src/wallet/dto/create-transaction.dto.ts`):
`transactionId` is the caller-supplied idempotency key (`externalId` in the
spec), `currency` is optional, `metadata` is an opaque optional payload. -/
structure CreateTransactionDto where
  transactionId : String
  walletId : String
  type : TransactionType
  amount : ℚ
  currency : Option String
  metadata : Option String
deriving DecidableEq, Repr

/-- `Wallet` entity row (`src/wallet/entities/wallet.entity.ts`):
balance in the reference currency, optimistic-lock `version` column. -/
structure Wallet where
  id : String
  balance : ℚ
  currency : String
  version : Nat
deriving DecidableEq, Repr

/-- `Transaction` entity row (`src/wallet/entities/transaction.entity.ts`):
`transactionId` carries a store-level unique constraint; `convertedAmount`
is the signed reference-currency impact actually applied. -/
structure Transaction where
  id : String
  transactionId : String
  walletId : String
  type : TransactionType
  amount : ℚ
  currency : String
  convertedAmount : ℚ
  metadata : Option String
deriving DecidableEq, Repr

/-- `TransactionResponseDto` (`src/wallet/dto/transaction-response.dto.ts`). -/
structure TransactionResponseDto where
  id : String
  transactionId : String
  walletId : String
  type : TransactionType
  amount : ℚ
  currency : String
  convertedAmount : ℚ
  metadata : Option String
deriving DecidableEq, Repr

/-- The error kinds the service can raise.  `InsufficientFunds` mirrors
`InsufficientFundsException` (`insufficient-funds.exception.ts`), whose
constructor stores `currentBalance`, `requestedAmount` and
`shortfall = requested - balance`.  `OptimisticLockVersionMismatch` is
TypeORM's conflict error, `DuplicateKey` the store's unique-constraint
violation on `transactionId`, and `MaxRetriesExceeded` the generic
`Error('Transaction failed after maximum retries')` thrown after the
retry loop. -/
inductive WalletError where
  | WalletNotFound (walletId : String)
  | UnsupportedCurrency (code : String)
  | InsufficientFunds (currentBalance requestedAmount shortfall : ℚ)
  | OptimisticLockVersionMismatch
  | DuplicateKey (transactionId : String)
  | MaxRetriesExceeded
deriving DecidableEq, Repr

/-- The relational store: wallet rows, the append-only transaction ledger,
and the id-generation counter. -/
structure LedgerState where
  wallets : List Wallet
  transactions : List Transaction
  nextId : Nat
deriving DecidableEq, Repr

/-! ## Currency service (`src/currency/currency.service.ts`) -/

/-- The fixed `exchangeRates` table of `CurrencyService`. -/
def exchangeRates : String → Option ℚ
  | "EGP" => some 1
  | "USD" => some 49
  | "EUR" => some 53
  | "GBP" => some 62
  | "SAR" => some 13
  | "AED" => some (133 / 10)
  | _ => none

/-- JavaScript `Math.round(x * 100) / 100`: `Math.round` rounds half-up
(toward positive infinity on ties), i.e. `floor(x + 1/2)`. -/
def round2 (x : ℚ) : ℚ := ((Int.floor (x * 100 + 1 / 2) : ℤ) : ℚ) / 100

/-- JavaScript `String.prototype.toUpperCase()` on ASCII currency codes,
written over the string's character list so that proofs can evaluate it. -/
def jsToUpper (s : String) : String := String.mk (s.data.map Char.toUpper)

/-- `CurrencyService.convert`: uppercase both codes, look each up in the
rate table (unknown code throws), convert through EGP, round once. -/
def convert (amount : ℚ) (fromCurrency toCurrency : String) :
    Except WalletError ℚ :=
  let f := jsToUpper fromCurrency
  let t := jsToUpper toCurrency
  match exchangeRates f with
  | none => .error (.UnsupportedCurrency f)
  | some rateFrom =>
    match exchangeRates t with
    | none => .error (.UnsupportedCurrency t)
    | some rateTo =>
      let amountInEGP := amount * rateFrom
      let convertedAmount := amountInEGP / rateTo
      .ok (round2 convertedAmount)

/-- `CurrencyService.toEGP`. -/
def toEGP (amount : ℚ) (fromCurrency : String) : Except WalletError ℚ :=
  convert amount fromCurrency "EGP"

/-! ## Wallet service (`src/wallet/wallet.service.ts`) -/

/-- `MAX_RETRIES` field of `WalletService`. -/
def MAX_RETRIES : Nat := 3

/-- `dto.currency || 'EGP'`: JavaScript falsy check, so a missing or empty
currency string defaults to the reference currency. -/
def currencyOrDefault : Option String → String
  | none => "EGP"
  | some c => if c = "" then "EGP" else c

/-- `findOne(Wallet, { where: { id: walletId } })`. -/
def findWallet (s : LedgerState) (walletId : String) : Option Wallet :=
  s.wallets.find? (fun w => w.id = walletId)

/-- `transactionRepository.findOne({ where: { transactionId } })`. -/
def findTransaction (s : LedgerState) (transactionId : String) :
    Option Transaction :=
  s.transactions.find? (fun t => t.transactionId = transactionId)

/-- `WalletService.mapToResponseDto`. -/
def mapToResponseDto (t : Transaction) : TransactionResponseDto :=
  { id := t.id
    transactionId := t.transactionId
    walletId := t.walletId
    type := t.type
    amount := t.amount
    currency := t.currency
    convertedAmount := t.convertedAmount
    metadata := t.metadata }

/-- Step 3 of `executeTransaction`: positive impact for a deposit,
negative for a withdrawal. -/
def transactionImpact (type : TransactionType) (convertedAmount : ℚ) : ℚ :=
  match type with
  | .DEPOSIT => convertedAmount
  | .WITHDRAWAL => -convertedAmount

/-- Step 6 of `executeTransaction`: the ledger row created by
`entityManager.create(Transaction, {...})` — `convertedAmount` stores the
signed `transactionImpact`, `id` a store-generated identifier. -/
def newTransactionRow (dto : CreateTransactionDto) (s : LedgerState)
    (impact : ℚ) : Transaction :=
  { id := "tx-" ++ toString s.nextId
    transactionId := dto.transactionId
    walletId := dto.walletId
    type := dto.type
    amount := dto.amount
    currency := currencyOrDefault dto.currency
    convertedAmount := impact
    metadata := dto.metadata }

/-- Steps 6-7 of `executeTransaction`: the store state after the atomic
commit — the ledger row appended and the wallet row saved with
`balance = newBalance`, the optimistic `version` column incrementing. -/
def commitState (dto : CreateTransactionDto) (s : LedgerState)
    (wallet : Wallet) (impact : ℚ) : LedgerState :=
  { wallets := s.wallets.map (fun w =>
      if w.id = wallet.id then
        { w with balance := wallet.balance + impact
                 version := w.version + 1 }
      else w)
    transactions := s.transactions ++ [newTransactionRow dto s impact]
    nextId := s.nextId + 1 }

/-- `WalletService.executeTransaction`: one atomic attempt inside
`dataSource.transaction`.  Load the wallet (WalletNotFound if absent),
convert to EGP, compute the signed impact and the prospective balance
`newBalance = wallet.balance + impact`, reject a negative prospective
balance with `InsufficientFundsException(wallet.balance,
Math.abs(transactionImpact))`, insert the ledger row (the store's unique
constraint on `transactionId` makes a duplicate insert throw), then save
the wallet with the new balance.  Any throw rolls the store transaction
back, so every error branch returns the input state unchanged. -/
def executeTransaction (dto : CreateTransactionDto) (s : LedgerState) :
    Except WalletError TransactionResponseDto × LedgerState :=
  match findWallet s dto.walletId with
  | none => (.error (.WalletNotFound dto.walletId), s)
  | some wallet =>
    match toEGP dto.amount (currencyOrDefault dto.currency) with
    | .error e => (.error e, s)
    | .ok convertedAmount =>
      let impact := transactionImpact dto.type convertedAmount
      if wallet.balance + impact < 0 then
        (.error (.InsufficientFunds wallet.balance |impact|
          (|impact| - wallet.balance)), s)
      else if (findTransaction s dto.transactionId).isSome then
        (.error (.DuplicateKey dto.transactionId), s)
      else
        (.ok (mapToResponseDto (newTransactionRow dto s impact)),
         commitState dto s wallet impact)

/-- `error instanceof OptimisticLockVersionMismatchError`. -/
def isOptimisticLock : WalletError → Bool
  | .OptimisticLockVersionMismatch => true
  | _ => false

/-- The `for (let attempt = 1; attempt <= MAX_RETRIES; attempt++)` loop of
`createTransaction`.  `outcome attempt` is the result of the store attempt
at that iteration (in a sequential run it is `executeTransaction`; a
concurrent writer can make an attempt fail with the optimistic-lock
conflict).  The returned list records the arguments of the
`sleep(Math.pow(2, attempt) * 100)` backoff calls, in order.  The fuel
argument counts the remaining loop iterations; exhausting it corresponds
to falling through the loop to
`throw new Error('Transaction failed after maximum retries')`. -/
def retryLoop
    (outcome : Nat → Except WalletError TransactionResponseDto × LedgerState)
    (s : LedgerState) :
    Nat → Nat →
      (Except WalletError TransactionResponseDto × LedgerState) × List ℚ
  | _, 0 => ((.error .MaxRetriesExceeded, s), [])
  | attempt, fuel + 1 =>
    match outcome attempt with
    | (.ok r, s1) => ((.ok r, s1), [])
    | (.error e, s1) =>
      if isOptimisticLock e ∧ attempt < MAX_RETRIES then
        let rest := retryLoop outcome s1 (attempt + 1) fuel
        (rest.1, ((2 : ℚ) ^ attempt * 100) :: rest.2)
      else
        ((.error e, s1), [])

/-- `WalletService.createTransaction` in a sequential (interference-free)
run, additionally reporting the backoff sleeps performed: idempotency
lookup by `transactionId` first — a hit is returned unchanged — otherwise
the retry loop around `executeTransaction`. -/
def createTransactionTrace (dto : CreateTransactionDto) (s : LedgerState) :
    (Except WalletError TransactionResponseDto × LedgerState) × List ℚ :=
  match findTransaction s dto.transactionId with
  | some existing => ((.ok (mapToResponseDto existing), s), [])
  | none => retryLoop (fun _ => executeTransaction dto s) s 1 MAX_RETRIES

/-- `WalletService.createTransaction`, sequential run (result and store
state only). -/
def createTransaction (dto : CreateTransactionDto) (s : LedgerState) :
    Except WalletError TransactionResponseDto × LedgerState :=
  (createTransactionTrace dto s).1

/-- Per-attempt outcome when a concurrent writer makes the first
`conflicts` attempts lose the optimistic-lock conditional write
(TypeORM raises `OptimisticLockVersionMismatchError`, the attempt rolls
back), after which an attempt runs undisturbed. -/
def conflictOutcome (dto : CreateTransactionDto) (s : LedgerState)
    (conflicts : Nat) (attempt : Nat) :
    Except WalletError TransactionResponseDto × LedgerState :=
  if attempt ≤ conflicts then (.error .OptimisticLockVersionMismatch, s)
  else executeTransaction dto s

/-- `WalletService.createTransaction` under optimistic-lock interference:
the first `conflicts` attempts fail with the version-conflict error. -/
def createTransactionWithConflicts (dto : CreateTransactionDto)
    (s : LedgerState) (conflicts : Nat) :
    (Except WalletError TransactionResponseDto × LedgerState) × List ℚ :=
  match findTransaction s dto.transactionId with
  | some existing => ((.ok (mapToResponseDto existing), s), [])
  | none => retryLoop (conflictOutcome dto s conflicts) s 1 MAX_RETRIES

/-- `WalletService.createTransaction` with the check-then-act window made
explicit: the idempotency lookup reads state `sLookup`, while the store
attempts run against `sExec` (a concurrent duplicate writer may have
committed in between).  A sequential run is `sLookup = sExec`. -/
def createTransactionRaced (dto : CreateTransactionDto)
    (sLookup sExec : LedgerState) :
    Except WalletError TransactionResponseDto × LedgerState :=
  match findTransaction sLookup dto.transactionId with
  | some existing => (.ok (mapToResponseDto existing), sExec)
  | none => (retryLoop (fun _ => executeTransaction dto sExec) sExec 1
      MAX_RETRIES).1

/-- `WalletService.createWallet`: build a row from the given balance and
currency and save it; the store assigns a fresh id and the version column
initialises to 1.  No validation of any kind is performed. -/
def createWallet (initialBalance : ℚ) (currency : String)
    (s : LedgerState) : Wallet × LedgerState :=
  let wallet : Wallet :=
    { id := "wallet-" ++ toString s.nextId
      balance := initialBalance
      currency := currency
      version := 1 }
  (wallet, { s with
      wallets := s.wallets ++ [wallet]
      nextId := s.nextId + 1 })

/-- `WalletService.validateBalanceConsistency`: load the wallet
(WalletNotFound if absent), sum `convertedAmount` over the wallet's
ledger rows (`SUM` of no rows is `parseFloat('0') = 0`), and compare with
the stored balance with absolute tolerance `< 0.01`.  Read-only. -/
def validateBalanceConsistency (walletId : String) (s : LedgerState) :
    Except WalletError Bool :=
  match findWallet s walletId with
  | none => .error (.WalletNotFound walletId)
  | some wallet =>
    let calculatedBalance :=
      ((s.transactions.filter (fun t => t.walletId = walletId)).map
        (fun t => t.convertedAmount)).sum
    .ok (decide (|wallet.balance - calculatedBalance| < 1 / 100))

/-- Sequential application of a list of requests through
`createTransaction`; a failing request leaves the store unchanged
(rollback), a successful one commits its new state. -/
def applyAll (dtos : List CreateTransactionDto) (s : LedgerState) :
    LedgerState :=
  dtos.foldl (fun st dto => (createTransaction dto st).2) s

end LedgerTask

/-! ## Concrete scenarios used by the closed theorems and witnesses -/

namespace LedgerTask

/-- An empty store. -/
def emptyState : LedgerState := ⟨[], [], 0⟩

/-- One wallet `wallet-0` created with initial balance 1000 EGP (as the
repository's integration tests do in `beforeEach`). -/
def oneWalletState : LedgerState := (createWallet 1000 "EGP" emptyState).2

/-- Replay of the repository's own integration scenario `'should maintain
balance consistency after multiple transactions'`: wallet created with
initial balance 1000, then deposit 500, withdraw 200, deposit 100. -/
def consistencyScenarioState : LedgerState :=
  applyAll
    [⟨"consistency-1", "wallet-0", .DEPOSIT, 500, some "EGP", none⟩,
     ⟨"consistency-2", "wallet-0", .WITHDRAWAL, 200, some "EGP", none⟩,
     ⟨"consistency-3", "wallet-0", .DEPOSIT, 100, some "EGP", none⟩]
    (createWallet 1000 "EGP" emptyState).2

/-- A fresh deposit request against `wallet-0`. -/
def freshDepositDto : CreateTransactionDto :=
  ⟨"fresh-tx", "wallet-0", .DEPOSIT, 50, some "EGP", none⟩

/-- The ledger row and store state produced by applying `freshDepositDto`
to `oneWalletState`. -/
def freshDepositTx : Transaction :=
  ⟨"tx-1", "fresh-tx", "wallet-0", .DEPOSIT, 50, "EGP", 50, none⟩

/-- The store after `freshDepositDto` committed against `oneWalletState`. -/
def afterFreshDepositState : LedgerState :=
  ⟨[⟨"wallet-0", 1050, "EGP", 2⟩], [freshDepositTx], 2⟩

/-- A duplicate-externalId race: the winning writer's committed row. -/
def winningTx : Transaction :=
  ⟨"tx-1", "dup-1", "wallet-0", .DEPOSIT, 100, "EGP", 100, none⟩

/-- The duplicated request of the losing writer. -/
def racedDto : CreateTransactionDto :=
  ⟨"dup-1", "wallet-0", .DEPOSIT, 100, some "EGP", none⟩

/-- Store state after the winning duplicate writer committed: the losing
writer's idempotency lookup ran against `oneWalletState`, its store
attempt runs against this state. -/
def racedExecState : LedgerState :=
  ⟨[⟨"wallet-0", 1100, "EGP", 2⟩], [winningTx], 2⟩

/-- The three requests of the repository's balance-consistency
integration test. -/
def c3Dto1 : CreateTransactionDto :=
  ⟨"consistency-1", "wallet-0", .DEPOSIT, 500, some "EGP", none⟩

/-- Second request of the balance-consistency integration test. -/
def c3Dto2 : CreateTransactionDto :=
  ⟨"consistency-2", "wallet-0", .WITHDRAWAL, 200, some "EGP", none⟩

/-- Third request of the balance-consistency integration test. -/
def c3Dto3 : CreateTransactionDto :=
  ⟨"consistency-3", "wallet-0", .DEPOSIT, 100, some "EGP", none⟩

/-- Store after `c3Dto1` committed against `oneWalletState`. -/
def c3State1 : LedgerState :=
  ⟨[⟨"wallet-0", 1500, "EGP", 2⟩],
   [⟨"tx-1", "consistency-1", "wallet-0", .DEPOSIT, 500, "EGP", 500, none⟩],
   2⟩

/-- Store after `c3Dto2` also committed. -/
def c3State2 : LedgerState :=
  ⟨[⟨"wallet-0", 1300, "EGP", 3⟩],
   [⟨"tx-1", "consistency-1", "wallet-0", .DEPOSIT, 500, "EGP", 500, none⟩,
    ⟨"tx-2", "consistency-2", "wallet-0", .WITHDRAWAL, 200, "EGP", -200,
      none⟩],
   3⟩

/-- Store after `c3Dto3` also committed: balance 1400, ledger sum 400. -/
def c3State3 : LedgerState :=
  ⟨[⟨"wallet-0", 1400, "EGP", 4⟩],
   [⟨"tx-1", "consistency-1", "wallet-0", .DEPOSIT, 500, "EGP", 500, none⟩,
    ⟨"tx-2", "consistency-2", "wallet-0", .WITHDRAWAL, 200, "EGP", -200,
      none⟩,
    ⟨"tx-3", "consistency-3", "wallet-0", .DEPOSIT, 100, "EGP", 100, none⟩],
   4⟩

/-- An overdraft attempt: withdraw 2000 from a balance of 1000. -/
def overdraftDto : CreateTransactionDto :=
  ⟨"overdraw-1", "wallet-0", .WITHDRAWAL, 2000, some "EGP", none⟩

/-- A reference-currency wallet with balance 0. -/
def zeroWalletState : LedgerState :=
  ⟨[⟨"wallet-0", 0, "EGP", 1⟩], [], 1⟩

/-- Deposit of 10 units of the rate-49 currency. -/
def usdDepositDto : CreateTransactionDto :=
  ⟨"usd-10", "wallet-0", .DEPOSIT, 10, some "USD", none⟩

/-- The ledger row written for `usdDepositDto`. -/
def usdDepositTx : Transaction :=
  ⟨"tx-1", "usd-10", "wallet-0", .DEPOSIT, 10, "USD", 490, none⟩

/-- The store after `usdDepositDto` committed against `zeroWalletState`:
the balance rose by exactly 490. -/
def afterUsdDepositState : LedgerState :=
  ⟨[⟨"wallet-0", 490, "EGP", 2⟩], [usdDepositTx], 2⟩

/-- A store already holding the ledger row `winningTx` (externalId
`dup-1`). -/
def dupHitState : LedgerState :=
  ⟨[⟨"wallet-0", 1100, "EGP", 2⟩], [winningTx], 2⟩

/-- A request with externalId `dup-1` whose payload (wallet, kind, amount,
currency, metadata) disagrees with the stored `winningTx` in every
field. -/
def mismatchedDto : CreateTransactionDto :=
  ⟨"dup-1", "other-wallet", .WITHDRAWAL, 7, some "USD", some "note"⟩

end LedgerTask

/-! ## Helper lemmas about the embedded operations -/

namespace LedgerTask

/-- Helper: `CurrencyService.convert` only ever throws `UnsupportedCurrency`;
in particular no conversion error is an optimistic-lock conflict. -/
theorem convert_error_not_conflict (a : ℚ) (c1 c2 : String) (e : WalletError)
    (h : convert a c1 c2 = .error e) : isOptimisticLock e = false := by
  simp only [convert] at h
  split at h
  · injection h with h1
    subst h1
    rfl
  · split at h
    · injection h with h1
      subst h1
      rfl
    · exact absurd h (by simp)

/-- Helper: every run of one store attempt either fails — rolling back to
the input state, with an error that is never the optimistic-lock
conflict — or commits, in which case the idempotency lookup was a miss,
the prospective balance was non-negative, and the result is the committed
row and state. -/
theorem executeTransaction_shape (dto : CreateTransactionDto)
    (s : LedgerState) :
    (∃ e, executeTransaction dto s = (.error e, s) ∧
      isOptimisticLock e = false) ∨
    (∃ wallet impact,
      findWallet s dto.walletId = some wallet ∧
      ¬ wallet.balance + impact < 0 ∧
      findTransaction s dto.transactionId = none ∧
      executeTransaction dto s =
        (.ok (mapToResponseDto (newTransactionRow dto s impact)),
         commitState dto s wallet impact)) := by
  simp only [executeTransaction]
  split
  · exact .inl ⟨_, rfl, rfl⟩
  · rename_i wallet hw
    split
    · rename_i e0 heq
      exact .inl ⟨_, rfl, convert_error_not_conflict _ _ _ _ heq⟩
    · rename_i convAmt hc
      split
      · exact .inl ⟨_, rfl, rfl⟩
      · rename_i hnn
        split
        · exact .inl ⟨_, rfl, rfl⟩
        · rename_i hdup
          exact .inr ⟨wallet, transactionImpact dto.type convAmt, hw, hnn,
            Option.not_isSome_iff_eq_none.mp hdup, rfl⟩

/-- Helper: a failing store attempt rolls back (the returned state is the
input state) and its error is never the optimistic-lock conflict. -/
theorem executeTransaction_error (dto : CreateTransactionDto)
    (s : LedgerState) (e : WalletError) (s1 : LedgerState)
    (h : executeTransaction dto s = (.error e, s1)) :
    s1 = s ∧ isOptimisticLock e = false := by
  rcases executeTransaction_shape dto s with ⟨e2, herr, hnc⟩ |
    ⟨w, i, _, _, _, hok⟩
  · rw [herr, Prod.mk.injEq] at h
    obtain ⟨he, hs⟩ := h
    injection he with h1
    subst h1
    exact ⟨hs.symm, hnc⟩
  · rw [hok] at h
    exact absurd h (by simp)

/-- Helper: one iteration of the retry loop whose attempt does not raise
the optimistic-lock conflict returns that attempt's outcome with no
backoff sleep. -/
theorem retryLoop_no_conflict
    (outcome : Nat → Except WalletError TransactionResponseDto × LedgerState)
    (s : LedgerState) (attempt fuel : Nat)
    (res : Except WalletError TransactionResponseDto) (s1 : LedgerState)
    (h : outcome attempt = (res, s1))
    (hnc : ∀ e, res = .error e → isOptimisticLock e = false) :
    retryLoop outcome s attempt (fuel + 1) = ((res, s1), []) := by
  cases res with
  | ok r => simp [retryLoop, h]
  | error e => simp [retryLoop, h, hnc e rfl]

/-- Helper: one iteration of the retry loop whose attempt loses the
optimistic-lock conditional write, with attempts remaining, sleeps
`2 ^ attempt * 100` milliseconds and retries. -/
theorem retryLoop_conflict_step
    (outcome : Nat → Except WalletError TransactionResponseDto × LedgerState)
    (s : LedgerState) (attempt fuel : Nat) (s1 : LedgerState)
    (h : outcome attempt = (.error .OptimisticLockVersionMismatch, s1))
    (hlt : attempt < MAX_RETRIES) :
    retryLoop outcome s attempt (fuel + 1) =
      ((retryLoop outcome s1 (attempt + 1) fuel).1,
       ((2 : ℚ) ^ attempt * 100) ::
         (retryLoop outcome s1 (attempt + 1) fuel).2) := by
  simp [retryLoop, h, isOptimisticLock, hlt]

/-- Helper: the final attempt of the retry loop is excluded by the
`attempt < MAX_RETRIES` guard, so even an optimistic-lock conflict there
is rethrown as-is, with no further sleep. -/
theorem retryLoop_conflict_last
    (outcome : Nat → Except WalletError TransactionResponseDto × LedgerState)
    (s : LedgerState) (attempt fuel : Nat) (s1 : LedgerState)
    (h : outcome attempt = (.error .OptimisticLockVersionMismatch, s1))
    (hge : ¬ attempt < MAX_RETRIES) :
    retryLoop outcome s attempt (fuel + 1) =
      ((.error .OptimisticLockVersionMismatch, s1), []) := by
  simp [retryLoop, h, isOptimisticLock, hge]

/-- Helper: in a sequential run a missed idempotency lookup makes
`createTransaction` behave as a single `executeTransaction` attempt with
no backoff sleep: the model's attempts never raise the optimistic-lock
conflict without concurrent interference. -/
theorem createTransactionTrace_miss (dto : CreateTransactionDto)
    (s : LedgerState)
    (hmiss : findTransaction s dto.transactionId = none) :
    createTransactionTrace dto s = (executeTransaction dto s, []) := by
  unfold createTransactionTrace
  rw [hmiss]
  have h3 : MAX_RETRIES = 2 + 1 := rfl
  rw [h3]
  rcases hex : executeTransaction dto s with ⟨res, s1⟩
  refine retryLoop_no_conflict _ s 1 2 res s1 rfl ?_
  intro e he
  subst he
  exact (executeTransaction_error dto s e s1 hex).2

/-- Helper: after a committed insert the idempotency lookup finds exactly
the inserted row (no earlier row carries the same `transactionId`). -/
theorem findTransaction_commit (dto : CreateTransactionDto)
    (s : LedgerState) (wallet : Wallet) (impact : ℚ)
    (hmiss : findTransaction s dto.transactionId = none) :
    findTransaction (commitState dto s wallet impact) dto.transactionId =
      some (newTransactionRow dto s impact) := by
  unfold findTransaction at hmiss ⊢
  simp only [commitState]
  rw [List.find?_append, hmiss]
  simp [newTransactionRow]

end LedgerTask

namespace LedgerTask

/-- Helper: rounding a value that is a whole number of cents. -/
theorem round2_cents (x : ℚ) (n : ℤ) (hn : x * 100 = (n : ℚ)) :
    round2 x = (n : ℚ) / 100 := by
  unfold round2
  rw [hn]
  have h0 : Int.floor ((1 : ℚ) / 2) = 0 := by
    rw [Int.floor_eq_zero_iff]
    constructor <;> norm_num
  rw [Int.floor_int_add, h0]
  norm_num

/-- Helper: evaluating `toEGP` for a currency present in the rate table. -/
theorem toEGP_eval (a r : ℚ) (c : String)
    (hc : exchangeRates (jsToUpper c) = some r) :
    toEGP a c = .ok (round2 (a * r / 1)) := by
  simp only [toEGP, convert, hc]
  rw [show jsToUpper "EGP" = "EGP" from by decide]
  rw [show exchangeRates "EGP" = some 1 from rfl]

/-- Helper: conversion from the reference currency is rounding only. -/
theorem toEGP_EGP (a : ℚ) : toEGP a "EGP" = .ok (round2 a) := by
  rw [toEGP_eval a 1 "EGP" (by decide)]
  norm_num

/-- Helper: one full committing run of `createTransaction` in a
sequential setting, given that every guard passes. -/
theorem createTransaction_commit (dto : CreateTransactionDto)
    (s : LedgerState) (wallet : Wallet) (conv : ℚ)
    (hmiss : findTransaction s dto.transactionId = none)
    (hw : findWallet s dto.walletId = some wallet)
    (hc : toEGP dto.amount (currencyOrDefault dto.currency) = .ok conv)
    (hnn : ¬ wallet.balance + transactionImpact dto.type conv < 0) :
    createTransaction dto s =
      (.ok (mapToResponseDto (newTransactionRow dto s
        (transactionImpact dto.type conv))),
       commitState dto s wallet (transactionImpact dto.type conv)) := by
  unfold createTransaction
  rw [createTransactionTrace_miss dto s hmiss]
  simp only [executeTransaction, hw, hc, hmiss]
  rw [if_neg hnn]
  simp

end LedgerTask

namespace LedgerTask

/-- C1: a request whose `externalId` (`transactionId`) already identifies a
stored ledger row is answered with that stored row and nothing else
happens: if a first `createTransaction` call succeeded, a second call with
the same request returns the very same response — in particular the same
ledger-row id — leaves the store (balance, version column, ledger) exactly
as it was, performs no retry sleep and no insert. -/
theorem applyTransaction_idempotent (dto : CreateTransactionDto)
    (s s1 : LedgerState) (r1 : TransactionResponseDto)
    (h : createTransaction dto s = (.ok r1, s1)) :
    createTransactionTrace dto s1 = ((.ok r1, s1), []) := by
  cases hfind : findTransaction s dto.transactionId with
  | some e =>
    have htr : createTransactionTrace dto s =
        ((.ok (mapToResponseDto e), s), []) := by
      unfold createTransactionTrace
      rw [hfind]
    unfold createTransaction at h
    rw [htr, Prod.mk.injEq] at h
    obtain ⟨he, hs⟩ := h
    injection he with h1
    subst hs
    rw [htr, h1]
  | none =>
    have htr := createTransactionTrace_miss dto s hfind
    have hexec : executeTransaction dto s = (.ok r1, s1) := by
      unfold createTransaction at h
      rw [htr] at h
      exact h
    rcases executeTransaction_shape dto s with ⟨e2, herr, _⟩ |
      ⟨w, i, hw, hnn, hdup, hok⟩
    · rw [herr] at hexec
      exact absurd hexec (by simp)
    · rw [hok, Prod.mk.injEq] at hexec
      obtain ⟨hr, hs⟩ := hexec
      injection hr with hr1
      subst hs
      unfold createTransactionTrace
      rw [findTransaction_commit dto s w i hdup]
      simp [hr1]

/-- Helper: the fresh 50 EGP deposit against `oneWalletState` commits to
the literal row and state. -/
theorem freshDeposit_commits :
    createTransaction freshDepositDto oneWalletState =
      (.ok (mapToResponseDto freshDepositTx), afterFreshDepositState) := by
  have hc : toEGP (50 : ℚ) "EGP" = .ok 50 := by
    rw [toEGP_EGP, round2_cents (50 : ℚ) 5000 (by norm_num)]
    norm_num
  have h := createTransaction_commit freshDepositDto oneWalletState
    ⟨"wallet-0", 1000, "EGP", 1⟩ 50 (by decide) (by decide) hc
    (by norm_num [freshDepositDto, transactionImpact])
  rw [h]
  have h1 : newTransactionRow freshDepositDto oneWalletState
      (transactionImpact freshDepositDto.type 50) = freshDepositTx := by
    decide
  have h2 : commitState freshDepositDto oneWalletState
      ⟨"wallet-0", 1000, "EGP", 1⟩
      (transactionImpact freshDepositDto.type 50) =
      afterFreshDepositState := by
    norm_num [commitState, oneWalletState, createWallet, emptyState,
      afterFreshDepositState, freshDepositTx, newTransactionRow,
      freshDepositDto, transactionImpact, currencyOrDefault]
    refine ⟨?_, by decide⟩
    rw [if_pos (by decide : ("wallet-" ++ toString 0 : String) = "wallet-0")]
    decide
  rw [h1, h2]

/-- C1 witness: the fresh deposit commits, and replaying the identical
request returns the same row id with the store untouched. -/
theorem applyTransaction_idempotent_witness :
    createTransaction freshDepositDto oneWalletState =
      (.ok (mapToResponseDto freshDepositTx), afterFreshDepositState) ∧
    createTransactionTrace freshDepositDto afterFreshDepositState =
      ((.ok (mapToResponseDto freshDepositTx), afterFreshDepositState), []) :=
  ⟨freshDeposit_commits,
   applyTransaction_idempotent freshDepositDto oneWalletState
     afterFreshDepositState (mapToResponseDto freshDepositTx)
     freshDeposit_commits⟩

end LedgerTask

namespace LedgerTask

/-- Helper: a failing `createTransaction` leaves the store unchanged
(the idempotent hit succeeds, and a failing attempt rolls back). -/
theorem createTransaction_error_state (dto : CreateTransactionDto)
    (s : LedgerState) (e : WalletError) (s1 : LedgerState)
    (h : createTransaction dto s = (.error e, s1)) : s1 = s := by
  cases hfind : findTransaction s dto.transactionId with
  | some ex =>
    unfold createTransaction createTransactionTrace at h
    rw [hfind] at h
    exact absurd h (by simp)
  | none =>
    unfold createTransaction at h
    rw [createTransactionTrace_miss dto s hfind] at h
    exact (executeTransaction_error dto s e s1 h).1

/-- Helper: the committed state keeps every wallet balance non-negative
when the input state did and the guarded prospective balance is
non-negative. -/
theorem commitState_nonneg (dto : CreateTransactionDto) (s : LedgerState)
    (wallet : Wallet) (impact : ℚ)
    (hInv : ∀ w ∈ s.wallets, 0 ≤ w.balance)
    (hnn : ¬ wallet.balance + impact < 0) :
    ∀ w ∈ (commitState dto s wallet impact).wallets, 0 ≤ w.balance := by
  intro w hw
  simp only [commitState, List.mem_map] at hw
  obtain ⟨w0, hw0, rfl⟩ := hw
  by_cases hid : w0.id = wallet.id
  · rw [if_pos hid]
    exact not_lt.mp hnn
  · rw [if_neg hid]
    exact hInv w0 hw0

/-- Helper: one `createTransaction` call — hit, commit or failure —
preserves non-negativity of every stored wallet balance. -/
theorem createTransaction_preserves_nonneg (dto : CreateTransactionDto)
    (s : LedgerState) (hInv : ∀ w ∈ s.wallets, 0 ≤ w.balance) :
    ∀ w ∈ (createTransaction dto s).2.wallets, 0 ≤ w.balance := by
  cases hfind : findTransaction s dto.transactionId with
  | some ex =>
    unfold createTransaction createTransactionTrace
    rw [hfind]
    exact hInv
  | none =>
    unfold createTransaction
    rw [createTransactionTrace_miss dto s hfind]
    rcases executeTransaction_shape dto s with ⟨e2, herr, _⟩ |
      ⟨w, i, hw, hnn, hdup, hok⟩
    · rw [herr]
      exact hInv
    · rw [hok]
      exact commitState_nonneg dto s w i hInv hnn

/-- Helper: non-negativity of all wallet balances is an invariant of any
sequence of `createTransaction` calls. -/
theorem applyAll_nonneg (dtos : List CreateTransactionDto) :
    ∀ s : LedgerState, (∀ w ∈ s.wallets, 0 ≤ w.balance) →
      ∀ w ∈ (applyAll dtos s).wallets, 0 ≤ w.balance := by
  induction dtos with
  | nil =>
    intro s h
    simpa [applyAll] using h
  | cons d ds ih =>
    intro s h
    have hstep : applyAll (d :: ds) s = applyAll ds (createTransaction d s).2 := by
      simp [applyAll]
    rw [hstep]
    exact ih _ (createTransaction_preserves_nonneg d s h)

/-- C2: starting from a store whose wallet balances are all non-negative
(as a wallet created with a non-negative initial balance is), no sequence
of transaction requests can drive any stored balance negative — each
attempt commits only when the prospective balance is at least zero — and
a failing request mutates nothing. -/
theorem balance_never_negative (dtos : List CreateTransactionDto)
    (s : LedgerState) (hInv : ∀ w ∈ s.wallets, 0 ≤ w.balance) :
    (∀ w ∈ (applyAll dtos s).wallets, 0 ≤ w.balance) ∧
    (∀ dto e s1, createTransaction dto s = (.error e, s1) → s1 = s) :=
  ⟨applyAll_nonneg dtos s hInv,
   fun dto e s1 h => createTransaction_error_state dto s e s1 h⟩

/-- C2 witness: the invariant instantiated on the concrete wallet store
and a concrete request list. -/
theorem balance_never_negative_witness :
    (∀ w ∈ oneWalletState.wallets, 0 ≤ w.balance) ∧
    ((∀ w ∈ (applyAll [freshDepositDto] oneWalletState).wallets,
        0 ≤ w.balance) ∧
     (∀ dto e s1, createTransaction dto oneWalletState = (.error e, s1) →
        s1 = oneWalletState)) :=
  ⟨by decide, balance_never_negative [freshDepositDto] oneWalletState
    (by decide)⟩

end LedgerTask

namespace LedgerTask

/-- Helper: first consistency-test request commits (deposit 500). -/
theorem c3_step1 : (createTransaction c3Dto1 oneWalletState).2 = c3State1 := by
  have hc : toEGP (500 : ℚ) "EGP" = .ok 500 := by
    rw [toEGP_EGP, round2_cents (500 : ℚ) 50000 (by norm_num)]
    norm_num
  rw [createTransaction_commit c3Dto1 oneWalletState
    ⟨"wallet-0", 1000, "EGP", 1⟩ 500 (by decide) (by decide) hc
    (by norm_num [c3Dto1, transactionImpact])]
  norm_num [commitState, oneWalletState, createWallet, emptyState, c3State1,
    newTransactionRow, c3Dto1, transactionImpact, currencyOrDefault]
  refine ⟨?_, by decide⟩
  rw [if_pos (by decide : ("wallet-" ++ toString 0 : String) = "wallet-0")]
  decide

/-- Helper: second consistency-test request commits (withdraw 200). -/
theorem c3_step2 : (createTransaction c3Dto2 c3State1).2 = c3State2 := by
  have hc : toEGP (200 : ℚ) "EGP" = .ok 200 := by
    rw [toEGP_EGP, round2_cents (200 : ℚ) 20000 (by norm_num)]
    norm_num
  rw [createTransaction_commit c3Dto2 c3State1
    ⟨"wallet-0", 1500, "EGP", 2⟩ 200 (by decide) (by decide) hc
    (by norm_num [c3Dto2, transactionImpact])]
  norm_num [commitState, c3State1, c3State2,
    newTransactionRow, c3Dto2, transactionImpact, currencyOrDefault]
  decide

/-- Helper: third consistency-test request commits (deposit 100). -/
theorem c3_step3 : (createTransaction c3Dto3 c3State2).2 = c3State3 := by
  have hc : toEGP (100 : ℚ) "EGP" = .ok 100 := by
    rw [toEGP_EGP, round2_cents (100 : ℚ) 10000 (by norm_num)]
    norm_num
  rw [createTransaction_commit c3Dto3 c3State2
    ⟨"wallet-0", 1300, "EGP", 3⟩ 100 (by decide) (by decide) hc
    (by norm_num [c3Dto3, transactionImpact])]
  norm_num [commitState, c3State2, c3State3,
    newTransactionRow, c3Dto3, transactionImpact, currencyOrDefault]
  decide

end LedgerTask

namespace LedgerTask

/-- C3: the repository's own balance-consistency scenario — a wallet
created with initial balance 1000, then a 500 deposit, a 200 withdrawal
and a 100 deposit, all successfully applied and nothing in flight —
leaves a stored balance of 1400 while the ledger rows sum to 400, so
`validateBalanceConsistency` returns `false` even though the repository's
integration test (`'should maintain balance consistency after multiple
transactions'`) expects `true`: the checker compares the balance against
the ledger sum alone and ignores the wallet's initial balance. -/
theorem consistency_check_fails_on_seeded_balance :
    applyAll [c3Dto1, c3Dto2, c3Dto3] oneWalletState = c3State3 ∧
    validateBalanceConsistency "wallet-0" c3State3 = .ok false ∧
    (findWallet c3State3 "wallet-0").map Wallet.balance = some 1400 ∧
    ((c3State3.transactions.filter (fun t => t.walletId = "wallet-0")).map
      (fun t => t.convertedAmount)).sum = 400 := by
  have hsum : ((c3State3.transactions.filter
      (fun t => t.walletId = "wallet-0")).map
      (fun t => t.convertedAmount)).sum = (400 : ℚ) := by
    norm_num [c3State3]
  refine ⟨?_, ?_, by decide, hsum⟩
  · show (createTransaction c3Dto3
      (createTransaction c3Dto2
        (createTransaction c3Dto1 oneWalletState).2).2).2 = c3State3
    rw [c3_step1, c3_step2, c3_step3]
  · unfold validateBalanceConsistency
    rw [show findWallet c3State3 "wallet-0" =
      some ⟨"wallet-0", 1400, "EGP", 4⟩ from by decide]
    rw [hsum]
    show Except.ok (decide (|(1400 : ℚ) - 400| < 1 / 100)) = Except.ok false
    rw [decide_eq_false (by norm_num : ¬ (|(1400 : ℚ) - 400| < 1 / 100))]

end LedgerTask

namespace LedgerTask

/-- C4: a request whose prospective balance would be strictly negative
fails on its first attempt with `InsufficientFunds` carrying the current
balance, the requested magnitude `|impact|` and the shortfall
`|impact| - balance`; it is not retried (no backoff sleep), and the store
is returned exactly as it was — no ledger row, no balance or version
change. -/
theorem insufficientFunds_immediate (dto : CreateTransactionDto)
    (s : LedgerState) (w : Wallet) (conv : ℚ)
    (hmiss : findTransaction s dto.transactionId = none)
    (hw : findWallet s dto.walletId = some w)
    (hc : toEGP dto.amount (currencyOrDefault dto.currency) = .ok conv)
    (hneg : w.balance + transactionImpact dto.type conv < 0) :
    createTransactionTrace dto s =
      ((.error (.InsufficientFunds w.balance
          |transactionImpact dto.type conv|
          (|transactionImpact dto.type conv| - w.balance)), s), []) := by
  rw [createTransactionTrace_miss dto s hmiss]
  simp only [executeTransaction, hw, hc]
  rw [if_pos hneg]

/-- C4 witness: withdrawing 2000 from a balance of 1000 fails at once with
balance 1000, requested 2000, shortfall 1000, and the store unchanged. -/
theorem insufficientFunds_immediate_witness :
    createTransactionTrace overdraftDto oneWalletState =
      ((.error (.InsufficientFunds 1000 2000 1000), oneWalletState), []) := by
  have hc : toEGP (2000 : ℚ) "EGP" = .ok 2000 := by
    rw [toEGP_EGP, round2_cents (2000 : ℚ) 200000 (by norm_num)]
    norm_num
  have h := insufficientFunds_immediate overdraftDto oneWalletState
    ⟨"wallet-0", 1000, "EGP", 1⟩ 2000 (by decide) (by decide) hc
    (by norm_num [overdraftDto, transactionImpact])
  rw [h]
  norm_num [overdraftDto, transactionImpact]

end LedgerTask

namespace LedgerTask

/-- Helper: an attempt at or below the injected conflict count loses the
conditional write. -/
theorem conflictOutcome_conflict (dto : CreateTransactionDto)
    (s : LedgerState) (conflicts attempt : Nat) (h : attempt ≤ conflicts) :
    conflictOutcome dto s conflicts attempt =
      (.error .OptimisticLockVersionMismatch, s) := by
  simp [conflictOutcome, h]

/-- Helper: an attempt past the injected conflict count runs undisturbed. -/
theorem conflictOutcome_clean (dto : CreateTransactionDto)
    (s : LedgerState) (conflicts attempt : Nat) (h : ¬ attempt ≤ conflicts) :
    conflictOutcome dto s conflicts attempt = executeTransaction dto s := by
  simp [conflictOutcome, h]

/-- Helper: the third loop iteration never sleeps — the backoff guard
requires `attempt < MAX_RETRIES`. -/
theorem retryLoop_attempt3
    (outcome : Nat → Except WalletError TransactionResponseDto × LedgerState)
    (s : LedgerState) : (retryLoop outcome s 3 1).2 = [] := by
  rcases h : outcome 3 with ⟨res, s1⟩
  cases res with
  | ok r => simp [retryLoop, h]
  | error e => simp [retryLoop, h, MAX_RETRIES]

/-- Helper: three straight optimistic-lock conflicts give backoff sleeps
of 200 and 400 milliseconds and then rethrow the raw conflict error —
the loop runs exactly three attempts. -/
theorem conflicts3_eval (dto : CreateTransactionDto) (s : LedgerState)
    (hmiss : findTransaction s dto.transactionId = none) :
    createTransactionWithConflicts dto s 3 =
      ((.error .OptimisticLockVersionMismatch, s), [200, 400]) := by
  have hC : createTransactionWithConflicts dto s 3 =
      retryLoop (conflictOutcome dto s 3) s 1 MAX_RETRIES := by
    unfold createTransactionWithConflicts
    rw [hmiss]
  have h1 := retryLoop_conflict_step (conflictOutcome dto s 3) s 1 2 s
    (conflictOutcome_conflict dto s 3 1 (by omega))
    (by norm_num [MAX_RETRIES])
  have h2 := retryLoop_conflict_step (conflictOutcome dto s 3) s 2 1 s
    (conflictOutcome_conflict dto s 3 2 (by omega))
    (by norm_num [MAX_RETRIES])
  have h4 := retryLoop_conflict_last (conflictOutcome dto s 3) s 3 0 s
    (conflictOutcome_conflict dto s 3 3 (by omega))
    (by norm_num [MAX_RETRIES])
  norm_num at h1 h2 h4
  rw [hC, show MAX_RETRIES = 3 from rfl, h1, h2, h4]

end LedgerTask

namespace LedgerTask

/-- C5 (amended): with the idempotency lookup a miss, the retry loop is
bounded at exactly three attempts and retries only on optimistic-lock
version conflicts; the backoff sleeps are `2 ^ attempt * 100`
milliseconds — 200ms after the first conflicted attempt and 400ms after
the second, with no further delay because the third attempt is the last.
With three or more conflicts the loop ends after its two sleeps. -/
theorem retry_backoff_schedule (dto : CreateTransactionDto)
    (s : LedgerState) (conflicts : Nat)
    (hmiss : findTransaction s dto.transactionId = none) :
    ((createTransactionWithConflicts dto s conflicts).2 =
      if conflicts = 0 then ([] : List ℚ)
      else if conflicts = 1 then [200] else [200, 400]) ∧
    (3 ≤ conflicts → createTransactionWithConflicts dto s conflicts =
      ((.error .OptimisticLockVersionMismatch, s), [200, 400])) := by
  have hC : createTransactionWithConflicts dto s conflicts =
      retryLoop (conflictOutcome dto s conflicts) s 1 MAX_RETRIES := by
    unfold createTransactionWithConflicts
    rw [hmiss]
  match conflicts with
  | 0 =>
    rcases hex : executeTransaction dto s with ⟨res, s1⟩
    have h1 : retryLoop (conflictOutcome dto s 0) s 1 (2 + 1) =
        ((res, s1), []) :=
      retryLoop_no_conflict _ s 1 2 res s1
        (by rw [conflictOutcome_clean dto s 0 1 (by omega)]; exact hex)
        (fun e he => by
          subst he
          exact (executeTransaction_error dto s e s1 hex).2)
    norm_num at h1
    rw [hC, show MAX_RETRIES = 3 from rfl, h1]
    exact ⟨rfl, by omega⟩
  | 1 =>
    rcases hex : executeTransaction dto s with ⟨res, s1⟩
    have h1 := retryLoop_conflict_step (conflictOutcome dto s 1) s 1 2 s
      (conflictOutcome_conflict dto s 1 1 (by omega))
      (by norm_num [MAX_RETRIES])
    have h2 : retryLoop (conflictOutcome dto s 1) s 2 (1 + 1) =
        ((res, s1), []) :=
      retryLoop_no_conflict _ s 2 1 res s1
        (by rw [conflictOutcome_clean dto s 1 2 (by omega)]; exact hex)
        (fun e he => by
          subst he
          exact (executeTransaction_error dto s e s1 hex).2)
    norm_num at h1 h2
    rw [hC, show MAX_RETRIES = 3 from rfl, h1, h2]
    exact ⟨rfl, by omega⟩
  | n + 2 =>
    have h1 := retryLoop_conflict_step (conflictOutcome dto s (n + 2)) s 1 2 s
      (conflictOutcome_conflict dto s (n + 2) 1 (by omega))
      (by norm_num [MAX_RETRIES])
    have h2 := retryLoop_conflict_step (conflictOutcome dto s (n + 2)) s 2 1 s
      (conflictOutcome_conflict dto s (n + 2) 2 (by omega))
      (by norm_num [MAX_RETRIES])
    have h3 := retryLoop_attempt3 (conflictOutcome dto s (n + 2)) s
    norm_num at h1 h2
    constructor
    · rw [if_neg (by omega), if_neg (by omega), hC,
        show MAX_RETRIES = 3 from rfl, h1, h2]
      simp [h3]
    · intro hge
      have h4 := retryLoop_conflict_last (conflictOutcome dto s (n + 2)) s 3 0 s
        (conflictOutcome_conflict dto s (n + 2) 3 (by omega))
        (by norm_num [MAX_RETRIES])
      norm_num at h4
      rw [hC, show MAX_RETRIES = 3 from rfl, h1, h2, h4]

/-- C5 witness: two injected conflicts against the fresh deposit produce
exactly the 200ms and 400ms sleeps. -/
theorem retry_backoff_schedule_witness :
    findTransaction oneWalletState freshDepositDto.transactionId = none ∧
    (((createTransactionWithConflicts freshDepositDto oneWalletState 2).2 =
      if 2 = 0 then ([] : List ℚ)
      else if 2 = 1 then [200] else [200, 400]) ∧
     (3 ≤ 2 → createTransactionWithConflicts freshDepositDto oneWalletState 2 =
      ((.error .OptimisticLockVersionMismatch, oneWalletState),
        [200, 400]))) :=
  ⟨by decide,
   retry_backoff_schedule freshDepositDto oneWalletState 2 (by decide)⟩

/-- C5 counterexample: the backoff delays the code actually sleeps are
200ms then 400ms — `Math.pow(2, attempt) * 100` for attempts 1 and 2 —
not the 100ms, 200ms, 400ms schedule the claim states. -/
theorem retry_delays_counterexample :
    (createTransactionWithConflicts freshDepositDto oneWalletState 3).2 =
      [200, 400] ∧
    (createTransactionWithConflicts freshDepositDto oneWalletState 3).2 ≠
      [100, 200, 400] := by
  have h := conflicts3_eval freshDepositDto oneWalletState (by decide)
  rw [h]
  exact ⟨rfl, by decide⟩

/-- C6: when every attempt loses the optimistic-lock conditional write,
`createTransaction` rethrows the raw `OptimisticLockVersionMismatchError`
from the third attempt — the `attempt < MAX_RETRIES` guard excludes the
final attempt, so the post-loop distinct exhaustion error
(`MaxRetriesExceeded`, the unreachable `'Transaction failed after maximum
retries'` throw) is never the surfaced error. -/
theorem conflict_exhaustion_surfaces_raw_error :
    createTransactionWithConflicts freshDepositDto oneWalletState 3 =
      ((.error .OptimisticLockVersionMismatch, oneWalletState), [200, 400]) ∧
    WalletError.OptimisticLockVersionMismatch ≠
      WalletError.MaxRetriesExceeded :=
  ⟨conflicts3_eval freshDepositDto oneWalletState (by decide), by decide⟩

end LedgerTask

namespace LedgerTask

/-- C7: in the duplicate-externalId race — the losing writer's idempotency
lookup ran before the winning writer committed, so it missed, but the
winning row exists by the time the insert runs — the insert hits the
store's unique constraint and `createTransaction` surfaces that
duplicate-key error to the caller: it is not an optimistic-lock conflict,
so it is not retried, and no re-read fallback returns the winning entry
as the claim (and the repository's concurrent-duplicate integration test)
requires. -/
theorem duplicate_race_surfaces_error :
    createTransactionRaced racedDto oneWalletState racedExecState =
      (.error (.DuplicateKey "dup-1"), racedExecState) ∧
    findTransaction racedExecState racedDto.transactionId = some winningTx ∧
    (Except.error (.DuplicateKey "dup-1") :
        Except WalletError TransactionResponseDto) ≠
      .ok (mapToResponseDto winningTx) := by
  refine ⟨?_, by decide, fun h => Except.noConfusion h⟩
  have hw : findWallet racedExecState racedDto.walletId =
      some ⟨"wallet-0", 1100, "EGP", 2⟩ := by decide
  have hc : toEGP racedDto.amount (currencyOrDefault racedDto.currency) =
      .ok 100 := by
    show toEGP (100 : ℚ) "EGP" = .ok 100
    rw [toEGP_EGP, round2_cents (100 : ℚ) 10000 (by norm_num)]
    norm_num
  have hexec : executeTransaction racedDto racedExecState =
      (.error (.DuplicateKey "dup-1"), racedExecState) := by
    simp only [executeTransaction, hw, hc]
    rw [if_neg (by norm_num [racedDto, transactionImpact])]
    rw [if_pos (by decide :
      (findTransaction racedExecState racedDto.transactionId).isSome = true)]
    rfl
  unfold createTransactionRaced
  rw [show findTransaction oneWalletState racedDto.transactionId = none
    from by decide]
  rw [show MAX_RETRIES = 2 + 1 from rfl]
  rw [retryLoop_no_conflict _ racedExecState 1 2 _ _ hexec
    (fun e he => by cases he; rfl)]

end LedgerTask

namespace LedgerTask

/-- C8: for a positive amount and a supported source currency, the
normalizer returns `round2(amount * rate[source] / rate[reference])` with
half-up rounding to two decimals applied exactly once, over the fixed
rate table EGP=1.0, USD=49.0, EUR=53.0, GBP=62.0, SAR=13.0, AED=13.3; in
particular depositing 10 units of the rate-49 currency into a
reference-currency wallet with balance 0 leaves balance exactly 490. -/
theorem currency_normalization (amount r : ℚ) (c : String)
    (hpos : 0 < amount)
    (hr : exchangeRates (jsToUpper c) = some r) :
    toEGP amount c = .ok (round2 (amount * r / 1)) ∧
    exchangeRates "EGP" = some 1 ∧
    exchangeRates "USD" = some 49 ∧
    exchangeRates "EUR" = some 53 ∧
    exchangeRates "GBP" = some 62 ∧
    exchangeRates "SAR" = some 13 ∧
    exchangeRates "AED" = some (133 / 10) ∧
    createTransaction usdDepositDto zeroWalletState =
      (.ok (mapToResponseDto usdDepositTx), afterUsdDepositState) := by
  refine ⟨toEGP_eval amount r c hr, rfl, rfl, rfl, rfl, rfl, rfl, ?_⟩
  have hc : toEGP usdDepositDto.amount
      (currencyOrDefault usdDepositDto.currency) = .ok 490 := by
    show toEGP (10 : ℚ) "USD" = .ok 490
    rw [toEGP_eval 10 49 "USD" (by decide)]
    rw [show (10 : ℚ) * 49 / 1 = 490 from by norm_num]
    rw [round2_cents (490 : ℚ) 49000 (by norm_num)]
    norm_num
  have h := createTransaction_commit usdDepositDto zeroWalletState
    ⟨"wallet-0", 0, "EGP", 1⟩ 490 (by decide) (by decide) hc
    (by norm_num [usdDepositDto, transactionImpact])
  rw [h]
  have h1 : newTransactionRow usdDepositDto zeroWalletState
      (transactionImpact usdDepositDto.type 490) = usdDepositTx := by decide
  have h2 : commitState usdDepositDto zeroWalletState
      ⟨"wallet-0", 0, "EGP", 1⟩ (transactionImpact usdDepositDto.type 490) =
      afterUsdDepositState := by
    norm_num [commitState, zeroWalletState, afterUsdDepositState, usdDepositTx,
      newTransactionRow, usdDepositDto, transactionImpact, currencyOrDefault]
    decide
  rw [h1, h2]

/-- C8 witness: the formula instantiated at 10 units of USD (rate 49). -/
theorem currency_normalization_witness :
    ((0 : ℚ) < 10 ∧ exchangeRates (jsToUpper "USD") = some 49) ∧
    (toEGP 10 "USD" = .ok (round2 (10 * 49 / 1)) ∧
     exchangeRates "EGP" = some 1 ∧
     exchangeRates "USD" = some 49 ∧
     exchangeRates "EUR" = some 53 ∧
     exchangeRates "GBP" = some 62 ∧
     exchangeRates "SAR" = some 13 ∧
     exchangeRates "AED" = some (133 / 10) ∧
     createTransaction usdDepositDto zeroWalletState =
       (.ok (mapToResponseDto usdDepositTx), afterUsdDepositState)) :=
  ⟨⟨by norm_num, by decide⟩,
   currency_normalization 10 49 "USD" (by norm_num) (by decide)⟩

end LedgerTask

namespace LedgerTask

/-- C9 counterexample: `createWallet` performs no validation at all — a
negative initial balance is not rejected; `createWallet(-5, 'EGP')`
returns normally and persists a wallet whose stored balance is -5. -/
theorem createWallet_accepts_negative :
    (createWallet (-5) "EGP" emptyState).1.balance = -5 ∧
    (createWallet (-5) "EGP" emptyState).2.wallets =
      [⟨"wallet-0", -5, "EGP", 1⟩] ∧
    ((-5 : ℚ) < 0) := by
  refine ⟨rfl, by decide, by norm_num⟩

/-- C9 (amended): `createWallet(initialBalance, currency)` allocates a new
store identifier, sets the version column to its initial value 1, and
persists the wallet row with the given balance and currency unchanged;
no validation of any kind is performed — in particular a negative initial
balance is accepted and stored as given. -/
theorem createWallet_spec (b : ℚ) (c : String) (s : LedgerState) :
    (createWallet b c s).1.id = "wallet-" ++ toString s.nextId ∧
    (createWallet b c s).1.balance = b ∧
    (createWallet b c s).1.currency = c ∧
    (createWallet b c s).1.version = 1 ∧
    (createWallet b c s).2.wallets = s.wallets ++ [(createWallet b c s).1] ∧
    (createWallet b c s).2.transactions = s.transactions ∧
    (createWallet b c s).2.nextId = s.nextId + 1 :=
  ⟨rfl, rfl, rfl, rfl, rfl, rfl, rfl⟩

/-- C10: an idempotency hit is decided by `transactionId` (`externalId`)
alone: whenever a stored row matches the request's `transactionId`, the
call returns that stored row unchanged — no payload comparison, no
mismatch error, no state change — and any two requests sharing that
`transactionId`, however much their walletId, kind, amount, currency or
metadata differ, get the very same result. -/
theorem idempotency_hit_ignores_payload (dto dto2 : CreateTransactionDto)
    (s : LedgerState) (e : Transaction)
    (h : findTransaction s dto.transactionId = some e)
    (heq : dto2.transactionId = dto.transactionId) :
    createTransactionTrace dto s = ((.ok (mapToResponseDto e), s), []) ∧
    createTransactionTrace dto2 s = createTransactionTrace dto s := by
  have h1 : createTransactionTrace dto s =
      ((.ok (mapToResponseDto e), s), []) := by
    unfold createTransactionTrace
    rw [h]
  have h2 : createTransactionTrace dto2 s =
      ((.ok (mapToResponseDto e), s), []) := by
    unfold createTransactionTrace
    rw [heq, h]
  exact ⟨h1, h2.trans h1.symm⟩

/-- C10 witness: a stored `dup-1` row answers both the matching request
and a request disagreeing in wallet, kind, amount, currency and
metadata. -/
theorem idempotency_hit_ignores_payload_witness :
    (findTransaction dupHitState racedDto.transactionId = some winningTx ∧
     mismatchedDto.transactionId = racedDto.transactionId) ∧
    (createTransactionTrace racedDto dupHitState =
      ((.ok (mapToResponseDto winningTx), dupHitState), []) ∧
     createTransactionTrace mismatchedDto dupHitState =
      createTransactionTrace racedDto dupHitState) :=
  ⟨⟨by decide, by decide⟩,
   idempotency_hit_ignores_payload racedDto mismatchedDto dupHitState
     winningTx (by decide) (by decide)⟩

end LedgerTask
